import Mathlib

/-!
Shallow embedding of the Alcovia intervention engine (Express server in
server/index.js, Vercel serverless handlers in api/, schema in
database/schema.sql) and proofs about its state-machine behaviour.

Timestamps are modelled as natural numbers (seconds); SQL
CURRENT_TIMESTAMP is the DB state's `now` field.  The n8n escalation
webhook is modelled by a configuration flag (N8N_WEBHOOK_URL present)
and an outcome oracle (`webhookFails`); a failed call is recorded in
`escalationFailures` (the handler's console.error) and nothing else,
mirroring the try/catch that swallows the error.
-/

namespace Alcovia

/-- Student status values: the CHECK constraint in schema.sql allows
exactly active, needs_intervention, remedial, on_track. -/
inductive StudentStatus where
  | active
  | on_track
  | needs_intervention
  | remedial
deriving DecidableEq, Repr

/-- Intervention status values: pending, assigned, completed, expired
(CHECK constraint in schema.sql). -/
inductive TicketStatus where
  | pending
  | assigned
  | completed
  | expired
deriving DecidableEq, Repr

/-- Row of the students table. -/
structure Student where
  student_id : String
  name : String
  email : Option String
  status : StudentStatus
  updated_at : Nat
deriving DecidableEq, Repr

/-- Row of the daily_logs table. -/
structure DailyLog where
  id : Nat
  student_id : String
  quiz_score : Int
  focus_minutes : Int
  tab_switches : Int
  passed : Bool
  created_at : Nat
deriving DecidableEq, Repr

/-- Row of the interventions table. -/
structure Intervention where
  id : Nat
  student_id : String
  trigger_log_id : Option Nat
  mentor_email : Option String
  remedial_task : Option String
  status : TicketStatus
  assigned_at : Option Nat
  completed_at : Option Nat
  created_at : Nat
  expires_at : Option Nat
deriving DecidableEq, Repr

/-- The server-side state: the three relations, SERIAL counters for the
two tables whose generated ids the handlers read back, the current
time, and the escalation-gateway environment (whether N8N_WEBHOOK_URL
is configured, whether the outbound call would fail, and how many
failed calls have been logged). -/
structure DB where
  students : List Student
  daily_logs : List DailyLog
  interventions : List Intervention
  nextLogId : Nat
  nextInterventionId : Nat
  now : Nat
  webhookConfigured : Bool
  webhookFails : Bool
  escalationFailures : Nat
deriving DecidableEq, Repr

/-- INTERVAL ’12 hours’, in seconds. -/
def twelveHours : Nat := 12 * 60 * 60

/-- The logic gate of the daily check-in:
passed = quiz_score > 7 && focus_minutes > 60 && tab_switches < 3. -/
def passedGate (quiz_score focus_minutes tab_switches : Int) : Bool :=
  decide (quiz_score > 7) && decide (focus_minutes > 60) && decide (tab_switches < 3)

/-- SELECT * FROM students WHERE student_id = $1 (first row). -/
def findStudent (db : DB) (sid : String) : Option Student :=
  db.students.find? (fun s => decide (s.student_id = sid))

/-- UPDATE students SET status = $st, updated_at = CURRENT_TIMESTAMP
WHERE student_id = $1. -/
def setStudentStatus (db : DB) (sid : String) (st : StudentStatus) : DB :=
  { db with students := db.students.map (fun s =>
      if s.student_id = sid then { s with status := st, updated_at := db.now } else s) }

/-- Response of the daily check-in endpoint: 400, 404, or the JSON
success body (passed flag, inserted log row, intervention_id when
failed, and whether the n8n webhook was invoked). -/
inductive CheckinResult where
  | badRequest (msg : String)
  | notFound
  | ok (passed : Bool) (log : DailyLog) (intervention_id : Option Nat)
       (escalationAttempted : Bool)
deriving DecidableEq, Repr

/-- The passed flag of a successful check-in response. -/
def resultVerdict : CheckinResult → Option Bool
  | .ok p _ _ _ => some p
  | _ => none

/-- Body of POST /api/daily-checkin after input validation: student
lookup, the logic gate, the daily_logs INSERT, then the success path
(status on_track) or the failure path (status needs_intervention, a
pending intervention expiring in 12 hours, best-effort n8n webhook).
Shared verbatim by the Express route and the serverless handlers. -/
def checkinCore (db : DB) (student_id : String)
    (quiz_score focus_minutes tab_switches : Int) : CheckinResult × DB :=
  match findStudent db student_id with
  | none => (.notFound, db)
  | some _ =>
    let passed := passedGate quiz_score focus_minutes tab_switches
    let log : DailyLog :=
      { id := db.nextLogId, student_id := student_id, quiz_score := quiz_score,
        focus_minutes := focus_minutes, tab_switches := tab_switches,
        passed := passed, created_at := db.now }
    let db1 : DB := { db with daily_logs := db.daily_logs ++ [log],
                              nextLogId := db.nextLogId + 1 }
    if passed then
      (.ok true log none false, setStudentStatus db1 student_id .on_track)
    else
      let db2 := setStudentStatus db1 student_id .needs_intervention
      let ticket : Intervention :=
        { id := db1.nextInterventionId, student_id := student_id,
          trigger_log_id := some log.id, mentor_email := none,
          remedial_task := none, status := .pending, assigned_at := none,
          completed_at := none, created_at := db1.now,
          expires_at := some (db1.now + twelveHours) }
      let db3 : DB := { db2 with interventions := db2.interventions ++ [ticket],
                                 nextInterventionId := db2.nextInterventionId + 1 }
      let db4 : DB := { db3 with escalationFailures := db3.escalationFailures +
                          (if db3.webhookConfigured && db3.webhookFails then 1 else 0) }
      (.ok false log (some ticket.id) db3.webhookConfigured, db4)

/-- POST /api/daily-checkin of the Express server (server/index.js):
presence check, range validation of quiz_score and focus_minutes, then
the shared body. An empty student_id is falsy in JS, hence rejected by
the presence check. -/
def dailyCheckin (db : DB) (student_id : String)
    (quiz_score focus_minutes tab_switches : Int) : CheckinResult × DB :=
  if student_id = "" then
    (.badRequest "Missing required fields: student_id, quiz_score, focus_minutes", db)
  else if quiz_score < 0 ∨ quiz_score > 10 then
    (.badRequest "quiz_score must be between 0 and 10", db)
  else if focus_minutes < 0 then
    (.badRequest "focus_minutes must be non-negative", db)
  else
    checkinCore db student_id quiz_score focus_minutes tab_switches

/-- The serverless daily check-in handler (api/daily-checkin.js): only
the presence check, no range validation, then the same shared body. -/
def dailyCheckinServerless (db : DB) (student_id : String)
    (quiz_score focus_minutes tab_switches : Int) : CheckinResult × DB :=
  if student_id = "" then
    (.badRequest "Missing required fields: student_id, quiz_score, focus_minutes", db)
  else
    checkinCore db student_id quiz_score focus_minutes tab_switches

/-- Response of the assign-intervention and complete-remedial
endpoints: 400 or the success JSON (they return no other outcome). -/
inductive ApiResult where
  | badRequest (msg : String)
  | success
deriving DecidableEq, Repr

/-- POST /api/assign-intervention: after the presence check it runs
UPDATE interventions SET status=’assigned’, remedial_task, mentor_email,
assigned_at WHERE student_id = $3 AND id = $4 (no status guard; a NULL
intervention_id matches no row), then unconditionally UPDATE students
SET status=’remedial’, and replies success. -/
def assignIntervention (db : DB) (student_id : String) (remedial_task : String)
    (mentor_email : Option String) (intervention_id : Option Nat) : ApiResult × DB :=
  if student_id = "" ∨ remedial_task = "" then
    (.badRequest "Missing required fields: student_id, remedial_task", db)
  else
    let db1 : DB := { db with interventions := db.interventions.map (fun t =>
        if t.student_id = student_id ∧ intervention_id = some t.id then
          { t with status := .assigned, remedial_task := some remedial_task,
                   mentor_email := mentor_email, assigned_at := some db.now }
        else t) }
    (.success, setStudentStatus db1 student_id .remedial)

/-- POST /api/complete-remedial: after the presence check it runs
UPDATE interventions SET status=’completed’, completed_at WHERE
student_id = $1 AND id = $2 (no status guard; a NULL intervention_id
matches no row), then unconditionally UPDATE students SET
status=’active’, and replies success. -/
def completeRemedial (db : DB) (student_id : String)
    (intervention_id : Option Nat) : ApiResult × DB :=
  if student_id = "" then
    (.badRequest "Missing student_id", db)
  else
    let db1 : DB := { db with interventions := db.interventions.map (fun t =>
        if t.student_id = student_id ∧ intervention_id = some t.id then
          { t with status := .completed, completed_at := some db.now }
        else t) }
    (.success, setStudentStatus db1 student_id .active)

/-- A ticket is open when its status is pending or assigned. -/
def isOpen (t : Intervention) : Bool :=
  decide (t.status = .pending) || decide (t.status = .assigned)

/-- Number of open tickets a student has. -/
def openTicketCount (db : DB) (sid : String) : Nat :=
  (db.interventions.filter (fun t => decide (t.student_id = sid) && isOpen t)).length

/-- The spec's one-open-ticket invariant. -/
def atMostOneOpen (db : DB) : Prop :=
  ∀ sid, openTicketCount db sid ≤ 1

/-- Status field returned by GET /api/student/:studentId (none on 404). -/
def getStudentStatus (db : DB) (sid : String) : Option StudentStatus :=
  (findStudent db sid).map Student.status

/-!
Notification Dispatcher (server/index.js): connectedStudents is a JS
Map from student_id to socket id.  Sessions are modelled by their
socket ids (numbers); the map by an association list in insertion
order, which is the iteration order of a JS Map.
-/

/-- Register handler: connectedStudents.set(studentId, socket.id).
Map.set replaces the value in place when the key is present and
appends otherwise. -/
def registerStudent : List (String × Nat) → String → Nat → List (String × Nat)
  | [], sid, sock => [(sid, sock)]
  | p :: rest, sid, sock =>
    if p.1 = sid then (sid, sock) :: rest else p :: registerStudent rest sid sock

/-- Disconnect handler: iterate the entries in insertion order, delete
the first whose socket id is the disconnected one, and break. -/
def unregisterSocket : List (String × Nat) → Nat → List (String × Nat)
  | [], _ => []
  | p :: rest, sock => if p.2 = sock then rest else p :: unregisterSocket rest sock

/-- connectedStudents.get(studentId). -/
def lookupSocket (m : List (String × Nat)) (sid : String) : Option Nat :=
  (m.find? (fun p => decide (p.1 = sid))).map Prod.snd

/-- notifyStudent: emits to the mapped socket when one exists and does
nothing otherwise; the returned value is the socket the event was
delivered to, none meaning the event was dropped. -/
def notifyStudent (m : List (String × Nat)) (sid : String) : Option Nat :=
  lookupSocket m sid

/-- Number of map entries bound to a given socket. -/
def socketEntryCount (m : List (String × Nat)) (sock : Nat) : Nat :=
  (m.filter (fun p => decide (p.2 = sock))).length

/-!
Expiry sweep.  The repository only declares interventions.expires_at
(schema.sql) and sets it to creation + 12 hours; the sweep itself is
delegated to the external n8n workflow / a recommended cron job and is
absent from the backend sources.  It is modelled here from the spec.
-/

/-- Modelled from the spec: the transition of one ticket under the
expiry sweep, which the backend sources do not implement (only
interventions.expires_at is declared).  Any ticket in Pending or
Assigned whose expiry deadline has passed transitions to Expired. -/
def sweepTicket (now : Nat) (t : Intervention) : Intervention :=
  if isOpen t && (match t.expires_at with
                  | some e => decide (e ≤ now)
                  | none => false) then
    { t with status := .expired }
  else t

/-- Modelled from the spec: the background expiry sweep.  It expires
every overdue open ticket, and any student left in NeedsIntervention
or Remedial with no remaining open ticket is forced back to Active
(the 24h+ tier of the escalation policy), so that a terminal
resolution is reached without manual intervention. -/
def expirySweep (db : DB) : DB :=
  let tickets := db.interventions.map (sweepTicket db.now)
  { db with
    interventions := tickets,
    students := db.students.map (fun s =>
      if (decide (s.status = .needs_intervention) || decide (s.status = .remedial)) &&
         tickets.all (fun t => !(decide (t.student_id = s.student_id) && isOpen t)) then
        { s with status := .active, updated_at := db.now }
      else s) }

/-!
Concrete fixtures: the sample student seeded by schema.sql
(student_id 123), an empty initial database, and states reached from
it by the handlers.
-/

/-- The sample student seeded by schema.sql. -/
def student0 : Student :=
  { student_id := "123", name := "Test Student",
    email := some "student@test.com", status := .active, updated_at := 0 }

/-- Initial state: the seeded student, empty logs and interventions,
webhook configured and healthy. -/
def db0 : DB :=
  { students := [student0], daily_logs := [], interventions := [],
    nextLogId := 1, nextInterventionId := 1, now := 0,
    webhookConfigured := true, webhookFails := false, escalationFailures := 0 }

/-- State after one failing check-in from db0. -/
def dbOneFail : DB := (dailyCheckin db0 "123" 5 30 1).2

/-- State after a second failing check-in. -/
def dbTwoFails : DB := (dailyCheckin dbOneFail "123" 5 30 1).2

/-- State holding one ticket already in Assigned for student 123. -/
def dbAssigned : DB :=
  { students := [{ student0 with status := .remedial }],
    daily_logs := [],
    interventions :=
      [{ id := 1, student_id := "123", trigger_log_id := some 1,
         mentor_email := some "m@x.com", remedial_task := some "task1",
         status := .assigned, assigned_at := some 50, completed_at := none,
         created_at := 0, expires_at := some twelveHours }],
    nextLogId := 2, nextInterventionId := 2, now := 100,
    webhookConfigured := true, webhookFails := false, escalationFailures := 0 }

/-- Initial state whose outbound escalation call fails. -/
def dbDown : DB := { db0 with webhookFails := true }

/-- State holding one pending ticket whose expiry deadline has passed. -/
def dbExpired : DB :=
  { students := [{ student0 with status := .needs_intervention }],
    daily_logs := [],
    interventions :=
      [{ id := 1, student_id := "123", trigger_log_id := some 1,
         mentor_email := none, remedial_task := none, status := .pending,
         assigned_at := none, completed_at := none, created_at := 0,
         expires_at := some twelveHours }],
    nextLogId := 2, nextInterventionId := 2, now := twelveHours + 60,
    webhookConfigured := true, webhookFails := false, escalationFailures := 0 }


theorem checkinCore_fail_eq (db : DB) (sid : String) (q f t : Int) (st : Student)
    (hfind : findStudent db sid = some st)
    (hfail : passedGate q f t = false) :
    checkinCore db sid q f t =
      (CheckinResult.ok false
         { id := db.nextLogId, student_id := sid, quiz_score := q,
           focus_minutes := f, tab_switches := t, passed := false,
           created_at := db.now }
         (some db.nextInterventionId) db.webhookConfigured,
       { students := db.students.map (fun s =>
           if s.student_id = sid then
             { s with status := .needs_intervention, updated_at := db.now }
           else s),
         daily_logs := db.daily_logs ++
           [{ id := db.nextLogId, student_id := sid, quiz_score := q,
              focus_minutes := f, tab_switches := t, passed := false,
              created_at := db.now }],
         interventions := db.interventions ++
           [{ id := db.nextInterventionId, student_id := sid,
              trigger_log_id := some db.nextLogId, mentor_email := none,
              remedial_task := none, status := .pending, assigned_at := none,
              completed_at := none, created_at := db.now,
              expires_at := some (db.now + twelveHours) }],
         nextLogId := db.nextLogId + 1,
         nextInterventionId := db.nextInterventionId + 1,
         now := db.now,
         webhookConfigured := db.webhookConfigured,
         webhookFails := db.webhookFails,
         escalationFailures := db.escalationFailures +
           (if db.webhookConfigured && db.webhookFails then 1 else 0) }) := by
  unfold checkinCore
  rw [hfind]
  simp only [hfail, Bool.false_eq_true, if_false, setStudentStatus]

theorem checkinCore_pass_eq (db : DB) (sid : String) (q f t : Int) (st : Student)
    (hfind : findStudent db sid = some st)
    (hpass : passedGate q f t = true) :
    checkinCore db sid q f t =
      (CheckinResult.ok true
         { id := db.nextLogId, student_id := sid, quiz_score := q,
           focus_minutes := f, tab_switches := t, passed := true,
           created_at := db.now }
         none false,
       { db with
         students := db.students.map (fun s =>
           if s.student_id = sid then
             { s with status := .on_track, updated_at := db.now }
           else s),
         daily_logs := db.daily_logs ++
           [{ id := db.nextLogId, student_id := sid, quiz_score := q,
              focus_minutes := f, tab_switches := t, passed := true,
              created_at := db.now }],
         nextLogId := db.nextLogId + 1 }) := by
  unfold checkinCore
  rw [hfind]
  simp only [hpass, if_true, setStudentStatus]

theorem dailyCheckin_eq_core (db : DB) (sid : String) (q f t : Int)
    (hsid : ¬ sid = "") (hq : ¬ (q < 0 ∨ q > 10)) (hf : ¬ f < 0) :
    dailyCheckin db sid q f t = checkinCore db sid q f t := by
  unfold dailyCheckin
  rw [if_neg hsid, if_neg hq, if_neg hf]


theorem status_of_mem_statusMap (l : List Student) (sid : String)
    (st' : StudentStatus) (now : Nat) :
    ∀ s ∈ l.map (fun s =>
        if s.student_id = sid then { s with status := st', updated_at := now } else s),
      s.student_id = sid → s.status = st' := by
  intro s hs hid
  rcases List.mem_map.mp hs with ⟨s0, _, rfl⟩
  by_cases h : s0.student_id = sid
  · simp [h]
  · simp only [if_neg h] at hid
    exact absurd hid h

theorem find?_statusMap (l : List Student) (sid : String)
    (st' : StudentStatus) (now : Nat) :
    (l.map (fun s =>
        if s.student_id = sid then { s with status := st', updated_at := now } else s)).find?
        (fun s => decide (s.student_id = sid)) =
      (l.find? (fun s => decide (s.student_id = sid))).map
        (fun s => { s with status := st', updated_at := now }) := by
  induction l with
  | nil => rfl
  | cons s0 rest ih =>
    by_cases h : s0.student_id = sid
    · simp [List.find?_cons, h]
    · simp [List.find?_cons, h, ih]


/-- C1 (amended): a SubmitCheckIn with failing inputs for an existing student
always appends one more open (pending) intervention ticket for that student,
so a failing check-in performed while the student already has an open ticket
yields two open tickets: the handlers never look for an existing open ticket
and the one-open-ticket invariant is not preserved. -/
theorem submitCheckInFail_adds_open_ticket
    (db : DB) (sid : String) (q f t : Int) (st : Student)
    (hsid : ¬ sid = "") (hq : ¬ (q < 0 ∨ q > 10)) (hf : ¬ f < 0)
    (hfind : findStudent db sid = some st)
    (hfail : passedGate q f t = false) :
    openTicketCount (dailyCheckin db sid q f t).2 sid = openTicketCount db sid + 1 := by
  rw [dailyCheckin_eq_core db sid q f t hsid hq hf,
      checkinCore_fail_eq db sid q f t st hfind hfail]
  simp [openTicketCount, List.filter_append, isOpen, List.filter]

/-- C5: a valid check-in of an existing student with a failing verdict
appends exactly one log with verdict false, sets the student's status to
needs_intervention, appends exactly one pending intervention ticket whose
expiry is its creation time plus 12 hours and which references the new log,
attempts the escalation call (webhook configured), and returns the new
ticket's identity in the response. -/
theorem submitCheckIn_failure_path
    (db : DB) (sid : String) (q f t : Int) (st : Student)
    (hsid : ¬ sid = "") (hq : ¬ (q < 0 ∨ q > 10)) (hf : ¬ f < 0)
    (hfind : findStudent db sid = some st)
    (hfail : passedGate q f t = false)
    (hcfg : db.webhookConfigured = true) :
    ∃ log ticket,
      (dailyCheckin db sid q f t).1 = .ok false log (some ticket.id) true ∧
      (dailyCheckin db sid q f t).2.daily_logs = db.daily_logs ++ [log] ∧
      log.passed = false ∧ log.student_id = sid ∧
      (dailyCheckin db sid q f t).2.interventions = db.interventions ++ [ticket] ∧
      ticket.student_id = sid ∧ ticket.status = .pending ∧
      ticket.trigger_log_id = some log.id ∧
      ticket.expires_at = some (db.now + twelveHours) ∧
      (∀ s ∈ (dailyCheckin db sid q f t).2.students,
        s.student_id = sid → s.status = .needs_intervention) := by
  rw [dailyCheckin_eq_core db sid q f t hsid hq hf,
      checkinCore_fail_eq db sid q f t st hfind hfail]
  refine ⟨{ id := db.nextLogId, student_id := sid, quiz_score := q,
            focus_minutes := f, tab_switches := t, passed := false,
            created_at := db.now },
          { id := db.nextInterventionId, student_id := sid,
            trigger_log_id := some db.nextLogId, mentor_email := none,
            remedial_task := none, status := .pending, assigned_at := none,
            completed_at := none, created_at := db.now,
            expires_at := some (db.now + twelveHours) },
          ?_, rfl, rfl, rfl, rfl, rfl, rfl, rfl, rfl, ?_⟩
  · rw [hcfg]
  · exact status_of_mem_statusMap db.students sid .needs_intervention db.now

/-- C7: when the escalation webhook is configured but the outbound call
fails, a failing check-in still returns success carrying the new ticket's
identity, the needs_intervention status and the pending ticket are not
rolled back, and the gateway failure is only recorded (one more logged
escalation failure), never surfaced as a failure of the submission. -/
theorem escalation_failure_nonfatal
    (db : DB) (sid : String) (q f t : Int) (st : Student)
    (hsid : ¬ sid = "") (hq : ¬ (q < 0 ∨ q > 10)) (hf : ¬ f < 0)
    (hfind : findStudent db sid = some st)
    (hfail : passedGate q f t = false)
    (hcfg : db.webhookConfigured = true)
    (hdown : db.webhookFails = true) :
    ∃ log ticket,
      (dailyCheckin db sid q f t).1 = .ok false log (some ticket.id) true ∧
      (dailyCheckin db sid q f t).2.interventions = db.interventions ++ [ticket] ∧
      ticket.status = .pending ∧ ticket.student_id = sid ∧
      (∀ s ∈ (dailyCheckin db sid q f t).2.students,
        s.student_id = sid → s.status = .needs_intervention) ∧
      (dailyCheckin db sid q f t).2.escalationFailures = db.escalationFailures + 1 := by
  rw [dailyCheckin_eq_core db sid q f t hsid hq hf,
      checkinCore_fail_eq db sid q f t st hfind hfail]
  refine ⟨{ id := db.nextLogId, student_id := sid, quiz_score := q,
            focus_minutes := f, tab_switches := t, passed := false,
            created_at := db.now },
          { id := db.nextInterventionId, student_id := sid,
            trigger_log_id := some db.nextLogId, mentor_email := none,
            remedial_task := none, status := .pending, assigned_at := none,
            completed_at := none, created_at := db.now,
            expires_at := some (db.now + twelveHours) },
          ?_, rfl, rfl, rfl, ?_, ?_⟩
  · rw [hcfg]
  · exact status_of_mem_statusMap db.students sid .needs_intervention db.now
  · simp [hcfg, hdown]

/-- C2: the verdict equals (quizScore > 7) AND (focusMinutes > 60) AND
(distractionCount < 3) with strict comparisons; the daily check-in endpoint
reports exactly this verdict for every accepted input of an existing student
(the gate is a pure function of the three inputs, so identical inputs give
identical verdicts); and the boundary cases quizScore=7/focusMinutes=60,
8/61/2 and 8/61/3 behave as claimed. -/
theorem gateEvaluator_correct :
    (∀ q f t : Int, passedGate q f t = true ↔ (q > 7 ∧ f > 60 ∧ t < 3)) ∧
    (∀ (db : DB) (sid : String) (q f t : Int) (st : Student),
      ¬ sid = "" → ¬ (q < 0 ∨ q > 10) → ¬ f < 0 →
      findStudent db sid = some st →
      resultVerdict (dailyCheckin db sid q f t).1 = some (passedGate q f t)) ∧
    passedGate 7 60 0 = false ∧ passedGate 8 61 2 = true ∧ passedGate 8 61 3 = false := by
  refine ⟨?_, ?_, by decide, by decide, by decide⟩
  · intro q f t
    simp [passedGate, and_assoc]
  · intro db sid q f t st hsid hq hf hfind
    rw [dailyCheckin_eq_core db sid q f t hsid hq hf]
    cases hp : passedGate q f t
    · rw [checkinCore_fail_eq db sid q f t st hfind hp]; rfl
    · rw [checkinCore_pass_eq db sid q f t st hfind hp]; rfl


theorem findStudent_setStudentStatus (db : DB) (sid : String) (st' : StudentStatus) :
    findStudent (setStudentStatus db sid st') sid =
      (findStudent db sid).map (fun s => { s with status := st', updated_at := db.now }) := by
  unfold findStudent setStudentStatus
  exact find?_statusMap db.students sid st' db.now

theorem findStudent_assign (db : DB) (sid task : String)
    (mentor : Option String) (tid : Option Nat)
    (hsid : ¬ sid = "") (htask : ¬ task = "") :
    findStudent (assignIntervention db sid task mentor tid).2 sid =
      (findStudent db sid).map
        (fun s => { s with status := .remedial, updated_at := db.now }) := by
  unfold assignIntervention
  rw [if_neg (by simp [hsid, htask])]
  exact findStudent_setStudentStatus _ sid .remedial

/-- C3 (amended): AssignIntervention performs no ticket-status check: with
valid fields it always returns success, overwrites any ticket matching the
given student and ticket identity regardless of its state, sets the
student's status to remedial, and a second call with the same ticket
identity succeeds again while leaving the student's status equal to its
value after the first call. -/
theorem assignIntervention_unconditional
    (db : DB) (sid task : String) (mentor : Option String) (tid : Option Nat)
    (hsid : ¬ sid = "") (htask : ¬ task = "") :
    (assignIntervention db sid task mentor tid).1 = .success ∧
    (∀ s ∈ (assignIntervention db sid task mentor tid).2.students,
      s.student_id = sid → s.status = .remedial) ∧
    (∀ t0 ∈ db.interventions, t0.student_id = sid → tid = some t0.id →
      { t0 with status := .assigned, remedial_task := some task,
                mentor_email := mentor, assigned_at := some db.now } ∈
        (assignIntervention db sid task mentor tid).2.interventions) ∧
    (∀ task2 mentor2, ¬ task2 = "" →
      getStudentStatus
        (assignIntervention (assignIntervention db sid task mentor tid).2
          sid task2 mentor2 tid).2 sid =
      getStudentStatus (assignIntervention db sid task mentor tid).2 sid) := by
  have hcond : ¬ (sid = "" ∨ task = "") := by simp [hsid, htask]
  refine ⟨?_, ?_, ?_, ?_⟩
  · unfold assignIntervention
    rw [if_neg hcond]
  · unfold assignIntervention
    rw [if_neg hcond]
    exact status_of_mem_statusMap _ sid .remedial db.now
  · intro t0 ht0 hts htid
    unfold assignIntervention
    rw [if_neg hcond]
    show _ ∈ (setStudentStatus _ sid .remedial).interventions
    simp only [setStudentStatus]
    exact List.mem_map.mpr ⟨t0, ht0, by rw [if_pos ⟨hts, htid⟩]⟩
  · intro task2 mentor2 htask2
    rw [getStudentStatus, getStudentStatus,
        findStudent_assign _ sid task2 mentor2 tid hsid htask2,
        findStudent_assign db sid task mentor tid hsid htask,
        Option.map_map, Option.map_map, Option.map_map]
    rfl


/-- C4 (amended): CompleteRemedial requires only a non-empty student
identity: it returns success unconditionally, sets any ticket matching the
given student and ticket identity to Completed with a completion time
regardless of its prior state, sets the student's status to active even
when no ticket matches, and a null ticket identity matches no ticket. -/
theorem completeRemedial_unconditional
    (db : DB) (sid : String) (tid : Option Nat) (hsid : ¬ sid = "") :
    (completeRemedial db sid tid).1 = .success ∧
    (∀ s ∈ (completeRemedial db sid tid).2.students,
      s.student_id = sid → s.status = .active) ∧
    (∀ t0 ∈ db.interventions, t0.student_id = sid → tid = some t0.id →
      { t0 with status := .completed, completed_at := some db.now } ∈
        (completeRemedial db sid tid).2.interventions) ∧
    (tid = none → (completeRemedial db sid tid).2.interventions = db.interventions) := by
  refine ⟨?_, ?_, ?_, ?_⟩
  · unfold completeRemedial
    rw [if_neg hsid]
  · unfold completeRemedial
    rw [if_neg hsid]
    exact status_of_mem_statusMap _ sid .active db.now
  · intro t0 ht0 hts htid
    unfold completeRemedial
    rw [if_neg hsid]
    show _ ∈ (setStudentStatus _ sid .active).interventions
    simp only [setStudentStatus]
    exact List.mem_map.mpr ⟨t0, ht0, by rw [if_pos ⟨hts, htid⟩]⟩
  · intro hnone
    subst hnone
    unfold completeRemedial
    rw [if_neg hsid]
    show (setStudentStatus _ sid .active).interventions = _
    simp only [setStudentStatus]
    refine Eq.trans (List.map_congr_left ?_) db.interventions.map_id
    intro t0 _
    have hne : ¬ (t0.student_id = sid ∧ (none : Option Nat) = some t0.id) := by
      rintro ⟨-, htid⟩
      exact Option.noConfusion htid
    rw [if_neg hne]
    rfl

/-- C10: in AssignIntervention and CompleteRemedial the student write is
unconditional on the ticket write: with a ticket identity matching no row
(including a null identity for CompleteRemedial) the interventions table is
untouched, yet the student's status is still set to remedial (assign) or
active (complete) and the call returns success. -/
theorem unknownTicket_still_mutates_student
    (db : DB) (sid task : String) (mentor : Option String) (tid : Option Nat)
    (hsid : ¬ sid = "") (htask : ¬ task = "")
    (hmiss : ∀ t0 ∈ db.interventions, ¬ (t0.student_id = sid ∧ tid = some t0.id)) :
    (assignIntervention db sid task mentor tid).1 = .success ∧
    (assignIntervention db sid task mentor tid).2.interventions = db.interventions ∧
    (∀ s ∈ (assignIntervention db sid task mentor tid).2.students,
      s.student_id = sid → s.status = .remedial) ∧
    (completeRemedial db sid none).1 = .success ∧
    (completeRemedial db sid none).2.interventions = db.interventions ∧
    (∀ s ∈ (completeRemedial db sid none).2.students,
      s.student_id = sid → s.status = .active) := by
  have hcond : ¬ (sid = "" ∨ task = "") := by simp [hsid, htask]
  refine ⟨?_, ?_, ?_, ?_, ?_, ?_⟩
  · unfold assignIntervention
    rw [if_neg hcond]
  · unfold assignIntervention
    rw [if_neg hcond]
    show (setStudentStatus _ sid .remedial).interventions = _
    simp only [setStudentStatus]
    refine Eq.trans (List.map_congr_left ?_) db.interventions.map_id
    intro t0 ht0
    rw [if_neg (hmiss t0 ht0)]
    rfl
  · unfold assignIntervention
    rw [if_neg hcond]
    exact status_of_mem_statusMap _ sid .remedial db.now
  · unfold completeRemedial
    rw [if_neg hsid]
  · unfold completeRemedial
    rw [if_neg hsid]
    show (setStudentStatus _ sid .active).interventions = _
    simp only [setStudentStatus]
    refine Eq.trans (List.map_congr_left ?_) db.interventions.map_id
    intro t0 _
    have hne : ¬ (t0.student_id = sid ∧ (none : Option Nat) = some t0.id) := by
      rintro ⟨-, htid⟩
      exact Option.noConfusion htid
    rw [if_neg hne]
    rfl
  · unfold completeRemedial
    rw [if_neg hsid]
    exact status_of_mem_statusMap _ sid .active db.now


/-- C8 (amended): Publish delivers exactly to the currently mapped session
and drops silently when none is mapped; Register overwrites the prior
mapping for that identity (last-connection-wins) and leaves other
identities' mappings unchanged; Unregister does nothing when the session is
not mapped and otherwise removes exactly one — the earliest-registered —
mapping bound to that session, so when the same session was registered
under several identities the later mappings survive. -/
theorem dispatcher_ops_spec :
    (∀ (m : List (String × Nat)) (sid : String) (sock : Nat),
      notifyStudent (registerStudent m sid sock) sid = some sock) ∧
    (∀ (m : List (String × Nat)) (sid : String),
      (∀ p ∈ m, p.1 ≠ sid) → notifyStudent m sid = none) ∧
    (∀ (m : List (String × Nat)) (sid sid2 : String) (sock : Nat),
      sid2 ≠ sid → lookupSocket (registerStudent m sid sock) sid2 = lookupSocket m sid2) ∧
    (∀ (m : List (String × Nat)) (sock : Nat),
      (∀ p ∈ m, p.2 ≠ sock) → unregisterSocket m sock = m) ∧
    (∀ (m : List (String × Nat)) (sock : Nat),
      0 < socketEntryCount m sock →
        socketEntryCount (unregisterSocket m sock) sock = socketEntryCount m sock - 1) := by
  refine ⟨?_, ?_, ?_, ?_, ?_⟩
  · intro m sid sock
    induction m with
    | nil => simp [registerStudent, notifyStudent, lookupSocket]
    | cons p rest ih =>
      by_cases h : p.1 = sid
      · simp [registerStudent, notifyStudent, lookupSocket, h, List.find?_cons]
      · simpa [registerStudent, notifyStudent, lookupSocket, h, List.find?_cons] using ih
  · intro m sid hm
    induction m with
    | nil => rfl
    | cons p rest ih =>
      have h1 : p.1 ≠ sid := hm p (by simp)
      simpa [notifyStudent, lookupSocket, List.find?_cons, h1] using
        ih (fun p2 hp2 => hm p2 (by simp [hp2]))
  · intro m sid sid2 sock hne
    induction m with
    | nil => simp [registerStudent, lookupSocket, List.find?_cons, Ne.symm hne]
    | cons p rest ih =>
      by_cases h : p.1 = sid
      · have h2 : p.1 ≠ sid2 := by rw [h]; exact Ne.symm hne
        simp [registerStudent, lookupSocket, List.find?_cons, h, h2, Ne.symm hne]
      · by_cases h3 : p.1 = sid2
        · simp [registerStudent, lookupSocket, List.find?_cons, h, h3, hne]
        · simpa [registerStudent, lookupSocket, List.find?_cons, h, h3] using ih
  · intro m sock hm
    induction m with
    | nil => rfl
    | cons p rest ih =>
      have h1 : p.2 ≠ sock := hm p (by simp)
      simp [unregisterSocket, h1, ih (fun p2 hp2 => hm p2 (by simp [hp2]))]
  · intro m sock
    induction m with
    | nil => intro h; exact absurd h (by simp [socketEntryCount])
    | cons p rest ih =>
      intro hpos
      by_cases h : p.2 = sock
      · simp [unregisterSocket, socketEntryCount, h, List.filter_cons]
      · have hcount : ∀ l, socketEntryCount (p :: l) sock = socketEntryCount l sock := by
          intro l
          simp [socketEntryCount, List.filter_cons, h]
        have hstep : unregisterSocket (p :: rest) sock = p :: unregisterSocket rest sock := by
          simp [unregisterSocket, h]
        rw [hstep, hcount, hcount]
        exact ih (by rwa [hcount] at hpos)


theorem sweepTicket_student_id (now : Nat) (t0 : Intervention) :
    (sweepTicket now t0).student_id = t0.student_id := by
  unfold sweepTicket
  split <;> rfl

theorem isOpen_sweepTicket_of_due (now : Nat) (t0 : Intervention)
    (h : isOpen t0 = true → t0.expires_at.getD (now + 1) ≤ now) :
    isOpen (sweepTicket now t0) = false ∧
    (isOpen t0 = true → (sweepTicket now t0).status = .expired) := by
  by_cases hop : isOpen t0 = true
  · have hd := h hop
    match he : t0.expires_at with
    | none =>
      rw [he] at hd
      exact absurd hd (by simp)
    | some e =>
      rw [he] at hd
      simp only [Option.getD_some] at hd
      have hcond : (isOpen t0 && match t0.expires_at with
                    | some e => decide (e ≤ now)
                    | none => false) = true := by
        rw [hop, he]
        simpa using hd
      have heq : sweepTicket now t0 = { t0 with status := .expired } := by
        unfold sweepTicket
        rw [if_pos hcond]
      rw [heq]
      exact ⟨by simp [isOpen], fun _ => rfl⟩
  · have hopf : isOpen t0 = false := Bool.eq_false_iff.mpr hop
    have heq : sweepTicket now t0 = t0 := by
      simp [sweepTicket, hopf]
    rw [heq, hopf]
    exact ⟨rfl, fun hc => absurd hc Bool.false_ne_true⟩

/-- C9: once the expiry sweep (modelled from the spec; the backend sources
only declare interventions.expires_at) runs at any time past the deadlines
of a student's open tickets, every overdue open ticket is Expired, the
student has no open ticket left, and the student is no longer in
needs_intervention or remedial — a terminal resolution is reached without
manual intervention. -/
theorem expiry_reaches_terminal
    (db : DB) (sid : String)
    (hdead : ∀ t0 ∈ db.interventions, t0.student_id = sid → isOpen t0 = true →
        t0.expires_at.getD (db.now + 1) ≤ db.now) :
    openTicketCount (expirySweep db) sid = 0 ∧
    (∀ t0 ∈ db.interventions, t0.student_id = sid → isOpen t0 = true →
        (sweepTicket db.now t0).status = .expired) ∧
    (∀ s ∈ (expirySweep db).students, s.student_id = sid →
        s.status ≠ .needs_intervention ∧ s.status ≠ .remedial) := by
  have hNotOpen : ∀ t0 ∈ db.interventions, t0.student_id = sid →
      isOpen (sweepTicket db.now t0) = false := by
    intro t0 ht0 hts
    exact (isOpen_sweepTicket_of_due db.now t0 (hdead t0 ht0 hts)).1
  have hAll : ∀ s0 : Student, s0.student_id = sid →
      (db.interventions.map (sweepTicket db.now)).all
        (fun t => !(decide (t.student_id = s0.student_id) && isOpen t)) = true := by
    intro s0 hs0
    rw [List.all_eq_true]
    intro x hx
    rcases List.mem_map.mp hx with ⟨t0, ht0, rfl⟩
    by_cases hts : t0.student_id = sid
    · rw [hNotOpen t0 ht0 hts]
      simp
    · have : ¬ (sweepTicket db.now t0).student_id = s0.student_id := by
        rw [sweepTicket_student_id, hs0]
        exact hts
      simp [this]
  refine ⟨?_, ?_, ?_⟩
  · show ((db.interventions.map (sweepTicket db.now)).filter
        (fun t => decide (t.student_id = sid) && isOpen t)).length = 0
    rw [List.length_eq_zero, List.filter_eq_nil_iff]
    intro x hx
    rcases List.mem_map.mp hx with ⟨t0, ht0, rfl⟩
    by_cases hts : t0.student_id = sid
    · rw [hNotOpen t0 ht0 hts]
      simp
    · have : ¬ (sweepTicket db.now t0).student_id = sid := by
        rw [sweepTicket_student_id]
        exact hts
      simp [this]
  · intro t0 ht0 hts hop
    exact (isOpen_sweepTicket_of_due db.now t0 (hdead t0 ht0 hts)).2 hop
  · intro s hs hsid2
    rcases List.mem_map.mp hs with ⟨s0, _, rfl⟩
    set c := (decide (s0.status = StudentStatus.needs_intervention) ||
        decide (s0.status = StudentStatus.remedial)) &&
        (db.interventions.map (sweepTicket db.now)).all
          (fun t => !(decide (t.student_id = s0.student_id) && isOpen t)) with hc
    by_cases hcond : c = true
    · rw [if_pos hcond]
      exact ⟨by simp, by simp⟩
    · rw [if_neg hcond] at hsid2 ⊢
      have hall := hAll s0 hsid2
      have hstat : (decide (s0.status = StudentStatus.needs_intervention) ||
          decide (s0.status = StudentStatus.remedial)) = false := by
        cases hsb : (decide (s0.status = StudentStatus.needs_intervention) ||
            decide (s0.status = StudentStatus.remedial))
        · rfl
        · refine absurd ?_ hcond
          rw [hc, hsb, hall]
          rfl
      constructor
      · intro hbad
        rw [hbad] at hstat
        simp at hstat
      · intro hbad
        rw [hbad] at hstat
        simp at hstat


/-- C1 (counterexample): from the seeded initial state, one failing check-in
leaves student 123 with one open ticket and an immediately following failing
check-in leaves two tickets in pending at once, violating the
at-most-one-open-ticket invariant the claim asserts of every reachable
state and every operation. -/
theorem twoOpenTickets_reachable :
    openTicketCount dbOneFail "123" = 1 ∧ openTicketCount dbTwoFails "123" = 2 := by
  decide

/-- C1 witness: the amended statement applied at the seeded initial state. -/
theorem submitCheckInFail_adds_open_ticket_witness :
    openTicketCount (dailyCheckin db0 "123" 5 30 1).2 "123" =
      openTicketCount db0 "123" + 1 :=
  submitCheckInFail_adds_open_ticket db0 "123" 5 30 1 student0
    (by decide) (by decide) (by decide) rfl (by decide)

/-- C2 witness: the endpoint conjunct applied at a concrete passing input. -/
theorem gateEvaluator_correct_witness :
    resultVerdict (dailyCheckin db0 "123" 8 61 2).1 = some (passedGate 8 61 2) :=
  gateEvaluator_correct.2.1 db0 "123" 8 61 2 student0
    (by decide) (by decide) (by decide) rfl

/-- C3 (counterexample): assigning against a ticket already in Assigned
returns success, not a conflict, and overwrites the ticket's remedial task —
refuting the claim that a non-Pending target yields a conflict error and
changes neither ticket nor student. -/
theorem assign_nonPending_overwrites :
    (assignIntervention dbAssigned "123" "task2" (some "m2@x.com") (some 1)).1 = .success ∧
    (assignIntervention dbAssigned "123" "task2" (some "m2@x.com") (some 1)).2.interventions.map
      Intervention.remedial_task = [some "task2"] := by
  decide

/-- C3 witness: success and second-call stability at a concrete state with a
pending ticket. -/
theorem assignIntervention_unconditional_witness :
    (assignIntervention dbOneFail "123" "Read Ch.4" (some "m@x.com") (some 1)).1 = .success ∧
    getStudentStatus
      (assignIntervention
        (assignIntervention dbOneFail "123" "Read Ch.4" (some "m@x.com") (some 1)).2
        "123" "Retry" none (some 1)).2 "123" =
    getStudentStatus
      (assignIntervention dbOneFail "123" "Read Ch.4" (some "m@x.com") (some 1)).2 "123" :=
  ⟨(assignIntervention_unconditional dbOneFail "123" "Read Ch.4" (some "m@x.com") (some 1)
      (by decide) (by decide)).1,
   (assignIntervention_unconditional dbOneFail "123" "Read Ch.4" (some "m@x.com") (some 1)
      (by decide) (by decide)).2.2.2 "Retry" none (by decide)⟩

/-- C4 (counterexample): CompleteRemedial on a ticket still in Pending (never
assigned) returns success, marks the ticket completed and the student
active — refuting the claim that any ticket state other than Assigned makes
the call fail without mutating ticket or student. -/
theorem complete_nonAssigned_succeeds :
    (completeRemedial dbOneFail "123" (some 1)).1 = .success ∧
    (completeRemedial dbOneFail "123" (some 1)).2.interventions.map Intervention.status =
      [.completed] ∧
    getStudentStatus (completeRemedial dbOneFail "123" (some 1)).2 "123" = some .active := by
  decide

/-- C4 witness: the amended statement applied at a state with an assigned
ticket, and with a null ticket identity. -/
theorem completeRemedial_unconditional_witness :
    (completeRemedial dbAssigned "123" (some 1)).1 = .success ∧
    (completeRemedial dbAssigned "123" none).2.interventions = dbAssigned.interventions :=
  ⟨(completeRemedial_unconditional dbAssigned "123" (some 1) (by decide)).1,
   (completeRemedial_unconditional dbAssigned "123" none (by decide)).2.2.2 rfl⟩

/-- C5 witness: the failure-path contract at the seeded initial state. -/
theorem submitCheckIn_failure_path_witness :
    ∃ log ticket,
      (dailyCheckin db0 "123" 5 30 1).1 = .ok false log (some ticket.id) true ∧
      (dailyCheckin db0 "123" 5 30 1).2.daily_logs = db0.daily_logs ++ [log] ∧
      log.passed = false ∧ log.student_id = "123" ∧
      (dailyCheckin db0 "123" 5 30 1).2.interventions = db0.interventions ++ [ticket] ∧
      ticket.student_id = "123" ∧ ticket.status = .pending ∧
      ticket.trigger_log_id = some log.id ∧
      ticket.expires_at = some (db0.now + twelveHours) ∧
      (∀ s ∈ (dailyCheckin db0 "123" 5 30 1).2.students,
        s.student_id = "123" → s.status = .needs_intervention) :=
  submitCheckIn_failure_path db0 "123" 5 30 1 student0
    (by decide) (by decide) (by decide) rfl (by decide) rfl

/-- C6: at the failing input quiz_score=15 the Express endpoint rejects with
a validation error and leaves the state untouched, but the serverless
daily-checkin handler accepts the out-of-range value, evaluates the gate on
it (15 > 7 passes) and writes a log — the claimed rejection-before-mutation
holds only for the Express route, not for the serverless handler. -/
theorem serverless_checkin_skips_range_validation :
    (dailyCheckin db0 "123" 15 200 0).1 =
      .badRequest "quiz_score must be between 0 and 10" ∧
    (dailyCheckin db0 "123" 15 200 0).2 = db0 ∧
    resultVerdict (dailyCheckinServerless db0 "123" 15 200 0).1 = some true ∧
    (dailyCheckinServerless db0 "123" 15 200 0).2.daily_logs.length = 1 ∧
    openTicketCount (dailyCheckinServerless db0 "123" 15 200 0).2 "123" = 0 := by
  decide

/-- C7 witness: the non-fatality contract at an initial state whose webhook
call fails. -/
theorem escalation_failure_nonfatal_witness :
    ∃ log ticket,
      (dailyCheckin dbDown "123" 5 30 1).1 = .ok false log (some ticket.id) true ∧
      (dailyCheckin dbDown "123" 5 30 1).2.interventions =
        dbDown.interventions ++ [ticket] ∧
      ticket.status = .pending ∧ ticket.student_id = "123" ∧
      (∀ s ∈ (dailyCheckin dbDown "123" 5 30 1).2.students,
        s.student_id = "123" → s.status = .needs_intervention) ∧
      (dailyCheckin dbDown "123" 5 30 1).2.escalationFailures =
        dbDown.escalationFailures + 1 :=
  escalation_failure_nonfatal dbDown "123" 5 30 1 student0
    (by decide) (by decide) (by decide) rfl (by decide) rfl rfl

/-- C8 (counterexample): after registering two student identities on the
same session, unregistering that session removes only the first mapping; a
mapping for the session survives and publish still delivers through it —
refuting the claim that Unregister removes the mapping for that session
whenever present. -/
theorem unregister_leaves_second_mapping :
    unregisterSocket (registerStudent (registerStudent [] "a" 1) "b" 1) 1 = [("b", 1)] ∧
    notifyStudent (unregisterSocket (registerStudent (registerStudent [] "a" 1) "b" 1) 1)
      "b" = some 1 := by
  decide

/-- C8 witness: each dispatcher property at concrete maps. -/
theorem dispatcher_ops_spec_witness :
    notifyStudent (registerStudent [] "a" 1) "a" = some 1 ∧
    notifyStudent [("a", 1)] "b" = none ∧
    lookupSocket (registerStudent [("a", 1)] "b" 2) "a" = lookupSocket [("a", 1)] "a" ∧
    unregisterSocket [("a", 1)] 2 = [("a", 1)] ∧
    socketEntryCount (unregisterSocket [("a", 1)] 1) 1 = socketEntryCount [("a", 1)] 1 - 1 :=
  ⟨dispatcher_ops_spec.1 [] "a" 1,
   dispatcher_ops_spec.2.1 [("a", 1)] "b" (by decide),
   dispatcher_ops_spec.2.2.1 [("a", 1)] "b" "a" 2 (by decide),
   dispatcher_ops_spec.2.2.2.1 [("a", 1)] 2 (by decide),
   dispatcher_ops_spec.2.2.2.2 [("a", 1)] 1 (by decide)⟩

/-- C9 witness: the sweep resolves a concrete state holding a pending ticket
whose deadline has passed. -/
theorem expiry_reaches_terminal_witness :
    openTicketCount (expirySweep dbExpired) "123" = 0 :=
  (expiry_reaches_terminal dbExpired "123" (by decide)).1

/-- C10 witness: unknown and null ticket identities at the seeded state. -/
theorem unknownTicket_still_mutates_student_witness :
    (assignIntervention db0 "123" "Read Ch.4" none (some 99)).1 = .success ∧
    (assignIntervention db0 "123" "Read Ch.4" none (some 99)).2.interventions =
      db0.interventions ∧
    (completeRemedial db0 "123" none).1 = .success ∧
    (completeRemedial db0 "123" none).2.interventions = db0.interventions :=
  ⟨(unknownTicket_still_mutates_student db0 "123" "Read Ch.4" none (some 99)
      (by decide) (by decide) (by decide)).1,
   (unknownTicket_still_mutates_student db0 "123" "Read Ch.4" none (some 99)
      (by decide) (by decide) (by decide)).2.1,
   (unknownTicket_still_mutates_student db0 "123" "Read Ch.4" none (some 99)
      (by decide) (by decide) (by decide)).2.2.2.1,
   (unknownTicket_still_mutates_student db0 "123" "Read Ch.4" none (some 99)
      (by decide) (by decide) (by decide)).2.2.2.2.1⟩

end Alcovia
